import Mathlib

/-!
# Upload handler of `backend/server.js`

A shallow embedding of the `POST /upload` route of `src/backend/server.js`
(lines 169-194) together with the parts of the runtime it calls:
`fs.readFileSync`, `fs.unlinkSync`, `fs.existsSync`, `path.resolve`, the
`pdf-parse` extractor and the UTF-8 decoding done by
`fs.readFileSync(path, "utf8")`.

The handler is stateful, so it is written in a state-and-exception monad over
a `World` that holds the filesystem and a chronological trace of every effect
the handler performs (filesystem calls, extractor calls, responses sent).
-/

namespace UploadServer

/-! ## Data model -/

/-- A byte buffer (`Buffer`): a list of bytes, each a natural number below 256. -/
abbrev Buffer := List Nat

/-- A thrown JavaScript error, identified by its code or message. -/
structure JsError where
  code : String
  deriving DecidableEq

/-- The file object that multer attaches to the request as `req.file`. -/
structure UploadedFile where
  /-- The field `req.file.originalname`: the client-side file name (informational). -/
  originalname : String
  /-- The field `req.file.mimetype`: the content type declared by the client. -/
  mimetype : String
  /-- The field `req.file.path`: where multer stored the upload (under `uploads/`). -/
  path : String
  deriving DecidableEq

/-- The request as the route callback sees it: `req.file` is absent when the
multipart body had no `file` part. -/
structure Request where
  file : Option UploadedFile
  deriving DecidableEq

/-- An HTTP response produced with `res.status(..).json(..)`: the status code
and the fields of the JSON object sent as body. -/
structure Response where
  status : Nat
  body : List (String × String)
  deriving DecidableEq

/-- The value `pdfParse` resolves to; the handler only projects `text`. -/
structure PdfData where
  numpages : Nat
  text : String
  deriving DecidableEq

/-- One observable effect of the handler. -/
inductive Event where
  /-- A call of `fs.readFileSync(path, ..)`. -/
  | readFile (path : String)
  /-- A call of `fs.unlinkSync(path)`. -/
  | unlink (path : String)
  /-- A call of `fs.existsSync(path)`. -/
  | existsCheck (path : String)
  /-- A call of `pdfParse(buf)` with the buffer `buf`. -/
  | extract (buf : Buffer)
  /-- A response was sent to the client. -/
  | send (r : Response)
  deriving DecidableEq

/-- The mutable world of one request: the filesystem (absolute path to
content) and the trace of effects so far, oldest first. -/
structure World where
  files : List (String × Buffer)
  trace : List Event
  deriving DecidableEq

/-- Everything outside the handler that decides how its calls behave. -/
structure Env where
  /-- The function `path.resolve`: turns `req.file.path` into an absolute path. -/
  resolve : String → String
  /-- The `pdf-parse` extractor: resolves to a `PdfData` or rejects. -/
  pdfParse : Buffer → Except JsError PdfData
  /-- An I/O fault raised by the read of the temporary file (`none`: the
  read behaves normally). -/
  readFault : Option JsError
  /-- An I/O fault raised by the `n`-th delete attempt, counted from 0
  (`none`: that delete behaves normally). -/
  unlinkFault : Nat → Option JsError

/-- The monad of handler code: a computation takes the world and returns a
value or a thrown `JsError`, together with the world it leaves. The world
survives a thrown exception, as filesystem effects do. -/
def Js (α : Type) : Type := World → Except JsError α × World

/-- Sequencing: a thrown exception skips the rest. -/
def Js.bind {α β : Type} (x : Js α) (f : α → Js β) : Js β := fun w =>
  match x w with
  | (.ok a, w1) => f a w1
  | (.error e, w1) => (.error e, w1)

/-- The `try { x } catch (e) { h e }` statement. -/
def Js.tryCatch {α : Type} (x : Js α) (h : JsError → Js α) : Js α := fun w =>
  match x w with
  | (.ok a, w1) => (.ok a, w1)
  | (.error e, w1) => h e w1

instance : Monad Js where
  pure a := fun w => (.ok a, w)
  bind := Js.bind

instance : MonadExcept JsError Js where
  throw e := fun w => (.error e, w)
  tryCatch := Js.tryCatch

/-- The current world. -/
def getWorld : Js World := fun w => (.ok w, w)

/-- Update the world. -/
def modifyWorld (f : World → World) : Js Unit := fun w => (.ok (), f w)

/-! ## Filesystem model -/

/-- Content stored at `path`, if the path exists. -/
def lookupFile (path : String) : List (String × Buffer) → Option Buffer
  | [] => none
  | (p, b) :: rest => if p = path then some b else lookupFile path rest

/-- The filesystem without any entry for `path`. -/
def removeFile (path : String) : List (String × Buffer) → List (String × Buffer)
  | [] => []
  | (p, b) :: rest => if p = path then removeFile path rest else (p, b) :: removeFile path rest

/-- The paths of the delete attempts recorded in a trace, oldest first. -/
def unlinkCalls : List Event → List String
  | [] => []
  | Event.unlink p :: rest => p :: unlinkCalls rest
  | _ :: rest => unlinkCalls rest

/-- The paths of the file reads recorded in a trace, oldest first. -/
def readCalls : List Event → List String
  | [] => []
  | Event.readFile p :: rest => p :: readCalls rest
  | _ :: rest => readCalls rest

/-- The buffers handed to the PDF extractor in a trace, oldest first. -/
def extractCalls : List Event → List Buffer
  | [] => []
  | Event.extract b :: rest => b :: extractCalls rest
  | _ :: rest => extractCalls rest

/-- The responses recorded in a trace, oldest first. -/
def responses : List Event → List Response
  | [] => []
  | Event.send r :: rest => r :: responses rest
  | _ :: rest => responses rest

/-- Append an event to the trace. -/
def logEvent (e : Event) : Js Unit :=
  modifyWorld fun w => { w with trace := w.trace ++ [e] }

/-- Model of `fs.readFileSync(path)`: returns the whole content of the file;
throws the injected fault, or `ENOENT` when the path does not exist. -/
def readFileSync (env : Env) (path : String) : Js Buffer := do
  logEvent (Event.readFile path)
  match env.readFault with
  | some e => throw e
  | none =>
    match lookupFile path (← getWorld).files with
    | some buf => pure buf
    | none => throw ⟨"ENOENT"⟩

/-- Model of `fs.unlinkSync(path)`: removes the path; throws the fault
injected for this attempt (leaving the file in place), or `ENOENT` when the
path does not exist. -/
def unlinkSync (env : Env) (path : String) : Js Unit := do
  let n := (unlinkCalls (← getWorld).trace).length
  logEvent (Event.unlink path)
  match env.unlinkFault n with
  | some e => throw e
  | none =>
    match lookupFile path (← getWorld).files with
    | some _ => modifyWorld fun w => { w with files := removeFile path w.files }
    | none => throw ⟨"ENOENT"⟩

/-- Model of `fs.existsSync(path)`: never throws. -/
def existsSync (path : String) : Js Bool := do
  logEvent (Event.existsCheck path)
  pure (lookupFile path (← getWorld).files).isSome

/-- Model of `await pdfParse(dataBuffer)`: a rejection is thrown at the
`await`. -/
def pdfParse (env : Env) (dataBuffer : Buffer) : Js PdfData := do
  logEvent (Event.extract dataBuffer)
  match env.pdfParse dataBuffer with
  | .ok data => pure data
  | .error e => throw e

/-- Model of `res.status(status).json(body)`: sends one response. -/
def resJson (status : Nat) (body : List (String × String)) : Js Unit :=
  logEvent (Event.send ⟨status, body⟩)

/-! ## UTF-8

`fs.readFileSync(path, "utf8")` decodes the bytes of the file the way
`buffer.toString("utf8")` does: the decoder never throws, every ill-formed
sequence is replaced by U+FFFD (one replacement per maximal ill-formed
subpart, as in the WHATWG decoder), and a leading byte order mark is kept.
Masks and shifts are written with `%` and `*`. -/

/-- U+FFFD REPLACEMENT CHARACTER. -/
def replacementChar : Char := Char.ofNat 0xFFFD

/-- State of the decoder between two bytes. -/
structure Utf8State where
  /-- Continuation bytes the current sequence needs in total. -/
  needed : Nat
  /-- Continuation bytes of the current sequence seen so far. -/
  seen : Nat
  /-- Code point accumulated so far. -/
  cp : Nat
  /-- Smallest value allowed for the next continuation byte. -/
  lower : Nat
  /-- Largest value allowed for the next continuation byte. -/
  upper : Nat
  deriving DecidableEq

/-- The decoder state outside any multi-byte sequence. -/
def utf8Init : Utf8State := ⟨0, 0, 0, 0x80, 0xBF⟩

/-- Decoder step on byte `b` when no sequence is open. -/
def utf8Lead (b : Nat) : List Char × Utf8State :=
  if b ≤ 0x7F then ([Char.ofNat b], utf8Init)
  else if 0xC2 ≤ b ∧ b ≤ 0xDF then ([], ⟨1, 0, b % 32, 0x80, 0xBF⟩)
  else if 0xE0 ≤ b ∧ b ≤ 0xEF then
    ([], ⟨2, 0, b % 16, if b = 0xE0 then 0xA0 else 0x80, if b = 0xED then 0x9F else 0xBF⟩)
  else if 0xF0 ≤ b ∧ b ≤ 0xF4 then
    ([], ⟨3, 0, b % 8, if b = 0xF0 then 0x90 else 0x80, if b = 0xF4 then 0x8F else 0xBF⟩)
  else ([replacementChar], utf8Init)

/-- Decoder step on byte `b`: the characters emitted and the next state. A
byte that cannot continue the open sequence ends it with a replacement
character and is then decoded afresh. -/
def utf8Step (s : Utf8State) (b : Nat) : List Char × Utf8State :=
  if s.needed = 0 then utf8Lead b
  else if b < s.lower ∨ s.upper < b then
    (replacementChar :: (utf8Lead b).1, (utf8Lead b).2)
  else if s.seen + 1 ≠ s.needed then
    ([], ⟨s.needed, s.seen + 1, s.cp * 64 + b % 64, 0x80, 0xBF⟩)
  else ([Char.ofNat (s.cp * 64 + b % 64)], utf8Init)

/-- Decoder loop; a sequence left open at the end of input is replaced. -/
def utf8Loop (s : Utf8State) : Buffer → List Char
  | [] => if s.needed ≠ 0 then [replacementChar] else []
  | b :: bs => (utf8Step s b).1 ++ utf8Loop (utf8Step s b).2 bs

/-- Model of `buffer.toString("utf8")`. -/
def utf8Decode (buf : Buffer) : String := ⟨utf8Loop utf8Init buf⟩

/-- UTF-8 encoding of one Unicode scalar value (RFC 3629). -/
def utf8EncodeChar (c : Char) : Buffer :=
  if c.toNat ≤ 0x7F then [c.toNat]
  else if c.toNat ≤ 0x7FF then [0xC0 + c.toNat / 64, 0x80 + c.toNat % 64]
  else if c.toNat ≤ 0xFFFF then
    [0xE0 + c.toNat / 4096, 0x80 + c.toNat / 64 % 64, 0x80 + c.toNat % 64]
  else
    [0xF0 + c.toNat / 262144, 0x80 + c.toNat / 4096 % 64, 0x80 + c.toNat / 64 % 64,
      0x80 + c.toNat % 64]

/-- UTF-8 encoding of a list of characters. -/
def utf8EncodeChars : List Char → Buffer
  | [] => []
  | c :: cs => utf8EncodeChar c ++ utf8EncodeChars cs

/-- The UTF-8 encoding of a text: what a client sends for the text `t`. -/
def utf8Encode (t : String) : Buffer := utf8EncodeChars t.data

/-- A buffer is valid UTF-8 when decoding it and encoding the result gives
the buffer back; by `validUtf8_iff_exists` these are exactly the encodings of
texts. -/
def ValidUtf8 (buf : Buffer) : Prop := utf8Encode (utf8Decode buf) = buf

instance (buf : Buffer) : Decidable (ValidUtf8 buf) :=
  inferInstanceAs (Decidable (utf8Encode (utf8Decode buf) = buf))

/-! ## The route -/

/-- Model of `fs.readFileSync(path, "utf8")`: read, then decode. -/
def readFileSyncUtf8 (env : Env) (path : String) : Js String := do
  let buf ← readFileSync env path
  pure (utf8Decode buf)

/-- The callback of `app.post("/upload", upload.single("file"), ...)`,
`server.js` lines 169-194. It runs after multer stored the upload. -/
def uploadHandler (env : Env) (req : Request) : Js Unit := do
  match req.file with
  | none => resJson 400 [("error", "No file uploaded")]
  | some file =>
    let filePath := env.resolve file.path
    try
      let mut text := ""
      if file.mimetype = "application/pdf" then
        let dataBuffer ← readFileSync env filePath
        let data ← pdfParse env dataBuffer
        text := data.text
      else if file.mimetype = "text/plain" then
        text ← readFileSyncUtf8 env filePath
      else
        unlinkSync env filePath
        resJson 400 [("error", "Unsupported file format, upload PDF or TXT.")]
        return
      unlinkSync env filePath
      resJson 200 [("text", text)]
    catch _ =>
      if (← existsSync filePath) then unlinkSync env filePath
      resJson 500 [("error", "Failed to process file.")]

/-- Result of running the handler on a world: the exception that escaped
the callback, if any, and the world it leaves. -/
structure Outcome where
  escaped : Option JsError
  world : World
  deriving DecidableEq

/-- Run the handler for request `req` on the filesystem `files`, with an
empty trace. -/
def handle (env : Env) (req : Request) (files : List (String × Buffer)) : Outcome :=
  match uploadHandler env req ⟨files, []⟩ with
  | (.ok _, w1) => ⟨none, w1⟩
  | (.error e, w1) => ⟨some e, w1⟩

/-! ## Concrete environments and requests -/

/-- Absolute path of the temporary file used in the examples:
`path.resolve("uploads/3f2a9c")` with working directory `/srv/app`. -/
def tmpAbs : String := "/srv/app/uploads/3f2a9c"

/-- The bytes of the text `hello world`. -/
def helloBytes : Buffer := [104, 101, 108, 108, 111, 32, 119, 111, 114, 108, 100]

/-- An environment where every filesystem call behaves normally; the
extractor accepts one document (the bytes `%PDF`) and rejects all others. -/
def normalEnv : Env :=
  { resolve := fun p => "/srv/app/" ++ p
    pdfParse := fun buf =>
      if buf = [37, 80, 68, 70] then .ok ⟨1, "Lecture notes"⟩
      else .error ⟨"InvalidPDFException"⟩
    readFault := none
    unlinkFault := fun _ => none }

/-- As `normalEnv`, but every delete raises `EBUSY`. -/
def busyEnv : Env := { normalEnv with unlinkFault := fun _ => some ⟨"EBUSY"⟩ }

/-- As `normalEnv`, but the first delete raises `EBUSY`; later ones succeed. -/
def flakyEnv : Env :=
  { normalEnv with unlinkFault := fun n => if n = 0 then some ⟨"EBUSY"⟩ else none }

/-- As `normalEnv`, but the read of the temporary file raises `EIO`. -/
def unreadableEnv : Env := { normalEnv with readFault := some ⟨"EIO"⟩ }

/-- A plain-text upload stored at `uploads/3f2a9c`. -/
def txtFile : UploadedFile := ⟨"notes.txt", "text/plain", "uploads/3f2a9c"⟩

/-- An executable relabelled as plain text by the client. -/
def exeAsTxtFile : UploadedFile := ⟨"setup.exe", "text/plain", "uploads/3f2a9c"⟩

/-- A PDF upload stored at `uploads/3f2a9c`. -/
def pdfFile : UploadedFile := ⟨"slides.pdf", "application/pdf", "uploads/3f2a9c"⟩

/-- An upload of a type the route does not support. -/
def pngFile : UploadedFile := ⟨"photo.png", "image/png", "uploads/3f2a9c"⟩

end UploadServer
namespace UploadServer

/-! ## UTF-8 round trip -/

theorem char_toNat_valid (c : Char) :
    c.toNat < 0xD800 ∨ (0xDFFF < c.toNat ∧ c.toNat < 0x110000) := c.valid

theorem utf8Lead_ascii (b : Nat) (h : b ≤ 0x7F) : utf8Lead b = ([Char.ofNat b], utf8Init) := by
  simp [utf8Lead, h]

theorem utf8Lead_two (b : Nat) (h1 : 0xC2 ≤ b) (h2 : b ≤ 0xDF) :
    utf8Lead b = ([], ⟨1, 0, b % 32, 0x80, 0xBF⟩) := by
  have h0 : ¬ b ≤ 0x7F := by omega
  simp [utf8Lead, h0, h1, h2]

theorem utf8Lead_three (b : Nat) (h1 : 0xE0 ≤ b) (h2 : b ≤ 0xEF) :
    utf8Lead b = ([], ⟨2, 0, b % 16, if b = 0xE0 then 0xA0 else 0x80,
      if b = 0xED then 0x9F else 0xBF⟩) := by
  have h0 : ¬ b ≤ 0x7F := by omega
  have h3 : ¬ (0xC2 ≤ b ∧ b ≤ 0xDF) := by omega
  simp only [utf8Lead, if_neg h0, if_neg h3, if_pos (And.intro h1 h2)]

theorem utf8Lead_four (b : Nat) (h1 : 0xF0 ≤ b) (h2 : b ≤ 0xF4) :
    utf8Lead b = ([], ⟨3, 0, b % 8, if b = 0xF0 then 0x90 else 0x80,
      if b = 0xF4 then 0x8F else 0xBF⟩) := by
  have h0 : ¬ b ≤ 0x7F := by omega
  have h3 : ¬ (0xC2 ≤ b ∧ b ≤ 0xDF) := by omega
  have h4 : ¬ (0xE0 ≤ b ∧ b ≤ 0xEF) := by omega
  simp only [utf8Lead, if_neg h0, if_neg h3, if_neg h4, if_pos (And.intro h1 h2)]

/-- A continuation byte inside the allowed window, not the last of its sequence. -/
theorem utf8Step_more (s : Utf8State) (b : Nat) (hn : s.needed ≠ 0)
    (hl : s.lower ≤ b) (hu : b ≤ s.upper) (hs : s.seen + 1 ≠ s.needed) :
    utf8Step s b = ([], ⟨s.needed, s.seen + 1, s.cp * 64 + b % 64, 0x80, 0xBF⟩) := by
  have hw : ¬ (b < s.lower ∨ s.upper < b) := by omega
  simp only [utf8Step, if_neg hn, if_neg hw, if_pos hs]

/-- A continuation byte inside the allowed window that completes its sequence. -/
theorem utf8Step_last (s : Utf8State) (b : Nat) (hn : s.needed ≠ 0)
    (hl : s.lower ≤ b) (hu : b ≤ s.upper) (hs : s.seen + 1 = s.needed) :
    utf8Step s b = ([Char.ofNat (s.cp * 64 + b % 64)], utf8Init) := by
  have hw : ¬ (b < s.lower ∨ s.upper < b) := by omega
  have hs2 : ¬ (s.seen + 1 ≠ s.needed) := by omega
  simp only [utf8Step, if_neg hn, if_neg hw, if_neg hs2]

theorem utf8Step_init (b : Nat) : utf8Step utf8Init b = utf8Lead b := by
  simp [utf8Step, utf8Init]

/-- Decoding the encoding of one character gives that character back and
leaves the decoder in its initial state. -/
theorem utf8Loop_encodeChar (c : Char) (rest : Buffer) :
    utf8Loop utf8Init (utf8EncodeChar c ++ rest) = c :: utf8Loop utf8Init rest := by
  have hv := char_toNat_valid c
  have hc : Char.ofNat c.toNat = c := Char.ofNat_toNat c
  unfold utf8EncodeChar
  by_cases h1 : c.toNat ≤ 0x7F
  · rw [if_pos h1]
    simp only [List.cons_append, List.nil_append, utf8Loop, utf8Step_init]
    rw [utf8Lead_ascii _ h1, hc]
    rfl
  · rw [if_neg h1]
    by_cases h2 : c.toNat ≤ 0x7FF
    · rw [if_pos h2]
      simp only [List.cons_append, List.nil_append, utf8Loop, utf8Step_init]
      rw [utf8Lead_two _ (by omega) (by omega)]
      rw [utf8Step_last _ _ (by simp) (by simp) (by simp; omega) (by simp)]
      have e : (0xC0 + c.toNat / 64) % 32 * 64 + (0x80 + c.toNat % 64) % 64 = c.toNat := by omega
      simp only [e, hc]
      rfl
    · rw [if_neg h2]
      by_cases h3 : c.toNat ≤ 0xFFFF
      · rw [if_pos h3]
        simp only [List.cons_append, List.nil_append, utf8Loop, utf8Step_init]
        rw [utf8Lead_three _ (by omega) (by omega)]
        rw [utf8Step_more _ _ (by simp) (by simp; split <;> omega) (by simp; split <;> omega)
          (by simp)]
        rw [utf8Step_last _ _ (by simp) (by simp) (by simp; omega) (by simp)]
        have e : ((0xE0 + c.toNat / 4096) % 16 * 64 + (0x80 + c.toNat / 64 % 64) % 64) * 64
            + (0x80 + c.toNat % 64) % 64 = c.toNat := by omega
        simp only [e, hc]
        rfl
      · rw [if_neg h3]
        simp only [List.cons_append, List.nil_append, utf8Loop, utf8Step_init]
        rw [utf8Lead_four _ (by omega) (by omega)]
        rw [utf8Step_more _ _ (by simp) (by simp; split <;> omega) (by simp; split <;> omega)
          (by simp)]
        rw [utf8Step_more _ _ (by simp) (by simp) (by simp; omega) (by simp)]
        rw [utf8Step_last _ _ (by simp) (by simp) (by simp; omega) (by simp)]
        have e : (((0xF0 + c.toNat / 262144) % 8 * 64 + (0x80 + c.toNat / 4096 % 64) % 64) * 64
            + (0x80 + c.toNat / 64 % 64) % 64) * 64 + (0x80 + c.toNat % 64) % 64 = c.toNat := by
          omega
        simp only [e, hc]
        rfl

theorem utf8Loop_encodeChars (cs : List Char) :
    utf8Loop utf8Init (utf8EncodeChars cs) = cs := by
  induction cs with
  | nil => simp [utf8EncodeChars, utf8Loop, utf8Init]
  | cons c cs ih => rw [utf8EncodeChars, utf8Loop_encodeChar, ih]

/-- Round trip: decoding the UTF-8 encoding of a text gives the text back. -/
theorem utf8Decode_utf8Encode (t : String) : utf8Decode (utf8Encode t) = t := by
  simp [utf8Decode, utf8Encode, utf8Loop_encodeChars]

/-- A buffer is valid UTF-8 exactly when it is the encoding of some text. -/
theorem validUtf8_iff_exists (buf : Buffer) :
    ValidUtf8 buf ↔ ∃ t : String, utf8Encode t = buf := by
  constructor
  · intro h
    exact ⟨_, h⟩
  · rintro ⟨t, rfl⟩
    show utf8Encode (utf8Decode (utf8Encode t)) = utf8Encode t
    rw [utf8Decode_utf8Encode]


/-! ## Running handler code -/

@[simp] theorem run_pure {α : Type} (a : α) (w : World) :
    (pure a : Js α) w = (.ok a, w) := rfl

@[simp] theorem run_bind {α β : Type} (x : Js α) (f : α → Js β) (w : World) :
    (x >>= f) w = match x w with
      | (.ok a, w1) => f a w1
      | (.error e, w1) => (.error e, w1) := rfl

@[simp] theorem run_map {α β : Type} (x : Js α) (f : α → β) (w : World) :
    (f <$> x) w = match x w with
      | (.ok a, w1) => (.ok (f a), w1)
      | (.error e, w1) => (.error e, w1) := by
  show Js.bind x _ w = _
  unfold Js.bind
  split <;> simp_all

@[simp] theorem run_throw {α : Type} (e : JsError) (w : World) :
    (throw e : Js α) w = (.error e, w) := rfl

@[simp] theorem run_tryCatch {α : Type} (x : Js α) (h : JsError → Js α) (w : World) :
    (tryCatch x h) w = match x w with
      | (.ok a, w1) => (.ok a, w1)
      | (.error e, w1) => h e w1 := rfl

@[simp] theorem run_getWorld (w : World) : getWorld w = (.ok w, w) := rfl

@[simp] theorem run_modifyWorld (f : World → World) (w : World) :
    modifyWorld f w = (.ok (), f w) := rfl

/-- A deleted path is no longer in the filesystem. -/
theorem lookupFile_removeFile (path : String) (files : List (String × Buffer)) :
    lookupFile path (removeFile path files) = none := by
  induction files with
  | nil => rfl
  | cons x rest ih =>
    obtain ⟨p, b⟩ := x
    by_cases h : p = path
    · simp [removeFile, h, ih]
    · simp [removeFile, lookupFile, h, ih]

/-! ## The claims -/

/-- C1 (cleanup invariant): for every request that carries a file part, if
deleting never raises an injected fault (so deleting an existing file
succeeds), then whatever the read and the extractor do, the handler lets no
exception escape, sends exactly one response, with status 200, 400 or 500, as
its last effect, and afterwards the temporary path
`path.resolve(req.file.path)` is not in the filesystem. -/
theorem cleanup_invariant (env : Env) (f : UploadedFile) (files : List (String × Buffer))
    (hdel : ∀ n, env.unlinkFault n = none) :
    (handle env ⟨some f⟩ files).escaped = none ∧
    (∃ r, responses (handle env ⟨some f⟩ files).world.trace = [r] ∧
      (handle env ⟨some f⟩ files).world.trace.getLast? = some (Event.send r) ∧
      (r.status = 200 ∨ r.status = 400 ∨ r.status = 500)) ∧
    lookupFile (env.resolve f.path) (handle env ⟨some f⟩ files).world.files = none := by
  by_cases hpdf : f.mimetype = "application/pdf"
  · cases hr : env.readFault with
    | some e =>
      cases hs : lookupFile (env.resolve f.path) files <;>
      simp [handle, uploadHandler, hpdf, readFileSync, pdfParse, unlinkSync, existsSync, resJson,
        logEvent, hr, hdel, hs, unlinkCalls, responses, lookupFile_removeFile]
    | none =>
      cases hs : lookupFile (env.resolve f.path) files with
      | none =>
        simp [handle, uploadHandler, hpdf, readFileSync, pdfParse, unlinkSync, existsSync, resJson,
          logEvent, hr, hdel, hs, unlinkCalls, responses, lookupFile_removeFile]
      | some buf =>
        cases hp : env.pdfParse buf <;>
        simp [handle, uploadHandler, hpdf, readFileSync, pdfParse, unlinkSync, existsSync, resJson,
          logEvent, hr, hdel, hs, hp, unlinkCalls, responses, lookupFile_removeFile]
  · by_cases htxt : f.mimetype = "text/plain"
    · cases hr : env.readFault <;> cases hs : lookupFile (env.resolve f.path) files <;>
      simp [handle, uploadHandler, htxt, readFileSyncUtf8, readFileSync, unlinkSync, existsSync,
        resJson, logEvent, hr, hdel, hs, unlinkCalls, responses, lookupFile_removeFile]
    · cases hs : lookupFile (env.resolve f.path) files <;>
      simp [handle, uploadHandler, hpdf, htxt, unlinkSync, existsSync,
        resJson, logEvent, hdel, hs, unlinkCalls, responses, lookupFile_removeFile]

/-- Witness of C1: a PDF upload the extractor rejects is answered (500) and its
temporary file is gone afterwards. -/
theorem cleanup_invariant_witness :
    (∀ n, normalEnv.unlinkFault n = none) ∧
    lookupFile tmpAbs (handle normalEnv ⟨some pdfFile⟩ [(tmpAbs, helloBytes)]).world.files
      = none :=
  ⟨fun _ => rfl, (cleanup_invariant normalEnv pdfFile [(tmpAbs, helloBytes)] (fun _ => rfl)).2.2⟩

/-- C2 (plain-text round trip): for an upload declared `text/plain` whose
stored bytes are the UTF-8 encoding of a text `T`, whatever its original name,
when the read and the delete do not fail the handler lets no exception escape
and sends exactly one response: status 200 with body `{ text: T }`. -/
theorem plain_text_round_trip (env : Env) (f : UploadedFile) (files : List (String × Buffer))
    (T : String)
    (hmime : f.mimetype = "text/plain")
    (hstored : lookupFile (env.resolve f.path) files = some (utf8Encode T))
    (hread : env.readFault = none) (hdel : env.unlinkFault 0 = none) :
    (handle env ⟨some f⟩ files).escaped = none ∧
    responses (handle env ⟨some f⟩ files).world.trace = [⟨200, [("text", T)]⟩] := by
  simp [handle, uploadHandler, hmime, readFileSyncUtf8, readFileSync, unlinkSync, resJson,
    logEvent, hread, hdel, hstored, unlinkCalls, responses, utf8Decode_utf8Encode]

/-- Witness of C2: the bytes of `hello world`, uploaded under the name
`setup.exe` but declared `text/plain`, come back as `{"text":"hello world"}`
with status 200. -/
theorem plain_text_round_trip_witness :
    utf8Encode "hello world" = helloBytes ∧
    responses (handle normalEnv ⟨some exeAsTxtFile⟩ [(tmpAbs, helloBytes)]).world.trace
      = [⟨200, [("text", "hello world")]⟩] :=
  ⟨by decide,
   (plain_text_round_trip normalEnv exeAsTxtFile [(tmpAbs, helloBytes)] "hello world"
      rfl (by decide) rfl rfl).2⟩

/-- C3 (unsupported format): for an upload whose declared type is neither
`application/pdf` nor `text/plain`, whatever bytes are stored, when the delete
does not fail the handler performs exactly two effects, in this order: it
deletes the temporary file, then sends status 400 with the unsupported-format
error. It never reads the file nor calls the extractor, no exception
escapes, and the temporary path is gone from the filesystem. -/
theorem unsupported_format_rejected (env : Env) (f : UploadedFile)
    (files : List (String × Buffer)) (buf : Buffer)
    (hpdf : f.mimetype ≠ "application/pdf") (htxt : f.mimetype ≠ "text/plain")
    (hstored : lookupFile (env.resolve f.path) files = some buf)
    (hdel : env.unlinkFault 0 = none) :
    handle env ⟨some f⟩ files
      = ⟨none, ⟨removeFile (env.resolve f.path) files,
          [Event.unlink (env.resolve f.path),
           Event.send ⟨400, [("error", "Unsupported file format, upload PDF or TXT.")]⟩]⟩⟩ ∧
    readCalls (handle env ⟨some f⟩ files).world.trace = [] ∧
    extractCalls (handle env ⟨some f⟩ files).world.trace = [] ∧
    lookupFile (env.resolve f.path) (handle env ⟨some f⟩ files).world.files = none := by
  simp [handle, uploadHandler, hpdf, htxt, unlinkSync, resJson,
    logEvent, hdel, hstored, unlinkCalls, readCalls, extractCalls, lookupFile_removeFile]

/-- Witness of C3: an `image/png` upload is deleted, then rejected with 400. -/
theorem unsupported_format_rejected_witness :
    pngFile.mimetype ≠ "application/pdf" ∧ pngFile.mimetype ≠ "text/plain" ∧
    handle normalEnv ⟨some pngFile⟩ [(tmpAbs, helloBytes)]
      = ⟨none, ⟨removeFile (normalEnv.resolve pngFile.path) [(tmpAbs, helloBytes)],
          [Event.unlink (normalEnv.resolve pngFile.path),
           Event.send ⟨400, [("error", "Unsupported file format, upload PDF or TXT.")]⟩]⟩⟩ :=
  ⟨by decide, by decide,
   (unsupported_format_rejected normalEnv pngFile [(tmpAbs, helloBytes)] helloBytes
      (by decide) (by decide) (by decide) rfl).1⟩

/-- C4 (missing file): a request with no file part is answered with status 400
and body `{ error: "No file uploaded" }`, and the handler does nothing else:
the trace holds that one response and no filesystem call, the filesystem is
unchanged and no exception escapes. -/
theorem missing_file_rejected (env : Env) (files : List (String × Buffer)) :
    handle env ⟨none⟩ files
      = ⟨none, ⟨files, [Event.send ⟨400, [("error", "No file uploaded")]⟩]⟩⟩ := by
  rfl

/-- C5 (processing failure): for an upload declared `application/pdf` or
`text/plain`, if the read of the temporary file raises (an I/O fault, or the
file is missing) or the PDF extractor rejects the bytes read, then, when the
delete in the failure path does not fail, the handler lets no exception
escape and sends exactly one response, status 500 with body
`{ error: "Failed to process file." }`, as its last effect; a temporary file
that still exists is deleted by one delete call before that response, and the
path is gone afterwards. -/
theorem processing_failure_reported (env : Env) (f : UploadedFile)
    (files : List (String × Buffer))
    (hkind : f.mimetype = "application/pdf" ∨ f.mimetype = "text/plain")
    (hfail : env.readFault ≠ none ∨ lookupFile (env.resolve f.path) files = none ∨
      (f.mimetype = "application/pdf" ∧ ∃ buf e,
        lookupFile (env.resolve f.path) files = some buf ∧ env.pdfParse buf = .error e))
    (hdel : env.unlinkFault 0 = none) :
    (handle env ⟨some f⟩ files).escaped = none ∧
    responses (handle env ⟨some f⟩ files).world.trace
      = [⟨500, [("error", "Failed to process file.")]⟩] ∧
    (handle env ⟨some f⟩ files).world.trace.getLast?
      = some (Event.send ⟨500, [("error", "Failed to process file.")]⟩) ∧
    unlinkCalls (handle env ⟨some f⟩ files).world.trace
      = (if (lookupFile (env.resolve f.path) files).isSome then [env.resolve f.path] else []) ∧
    lookupFile (env.resolve f.path) (handle env ⟨some f⟩ files).world.files = none := by
  rcases hkind with hpdf | htxt
  · cases hr : env.readFault with
    | some e =>
      cases hs : lookupFile (env.resolve f.path) files <;>
      simp [handle, uploadHandler, hpdf, readFileSync, pdfParse, unlinkSync, existsSync, resJson,
        logEvent, hr, hdel, hs, unlinkCalls, responses, lookupFile_removeFile]
    | none =>
      cases hs : lookupFile (env.resolve f.path) files with
      | none =>
        simp [handle, uploadHandler, hpdf, readFileSync, pdfParse, unlinkSync, existsSync, resJson,
          logEvent, hr, hdel, hs, unlinkCalls, responses, lookupFile_removeFile]
      | some buf =>
        rcases hfail with h | h | ⟨_, b, e, hb, he⟩
        · exact absurd hr h
        · rw [hs] at h; cases h
        · rw [hs] at hb
          cases hb
          simp [handle, uploadHandler, hpdf, readFileSync, pdfParse, unlinkSync, existsSync,
            resJson, logEvent, hr, hdel, hs, he, unlinkCalls, responses, lookupFile_removeFile]
  · have hnp : f.mimetype ≠ "application/pdf" := by rw [htxt]; decide
    cases hr : env.readFault with
    | some e =>
      cases hs : lookupFile (env.resolve f.path) files <;>
      simp [handle, uploadHandler, htxt, readFileSyncUtf8, readFileSync, unlinkSync, existsSync,
        resJson, logEvent, hr, hdel, hs, unlinkCalls, responses, lookupFile_removeFile]
    | none =>
      cases hs : lookupFile (env.resolve f.path) files with
      | none =>
        simp [handle, uploadHandler, htxt, readFileSyncUtf8, readFileSync, unlinkSync, existsSync,
          resJson, logEvent, hr, hdel, hs, unlinkCalls, responses, lookupFile_removeFile]
      | some buf =>
        rcases hfail with h | h | ⟨h, _⟩
        · exact absurd hr h
        · rw [hs] at h; cases h
        · exact absurd h hnp

/-- Witness of C5: bytes with no PDF structure, declared `application/pdf`, are
answered with status 500 and `{"error":"Failed to process file."}`. -/
theorem processing_failure_reported_witness :
    normalEnv.pdfParse helloBytes = .error ⟨"InvalidPDFException"⟩ ∧
    responses (handle normalEnv ⟨some pdfFile⟩ [(tmpAbs, helloBytes)]).world.trace
      = [⟨500, [("error", "Failed to process file.")]⟩] :=
  ⟨rfl,
   (processing_failure_reported normalEnv pdfFile [(tmpAbs, helloBytes)] (Or.inl rfl)
      (Or.inr (Or.inr ⟨rfl, helloBytes, ⟨"InvalidPDFException"⟩, by decide, rfl⟩))
      rfl).2.1⟩

/-- C6 (PDF success): for an upload declared `application/pdf` whose stored
bytes are `buf`, if the extractor applied to `buf` resolves to `data`, then,
when the read and the delete do not fail, the extractor is called exactly once,
with exactly `buf`, no exception escapes, and the handler sends exactly one
response: status 200 with body `{ text: data.text }`, unmodified. -/
theorem pdf_text_returned (env : Env) (f : UploadedFile) (files : List (String × Buffer))
    (buf : Buffer) (data : PdfData)
    (hmime : f.mimetype = "application/pdf")
    (hstored : lookupFile (env.resolve f.path) files = some buf)
    (hread : env.readFault = none)
    (hparse : env.pdfParse buf = .ok data)
    (hdel : env.unlinkFault 0 = none) :
    (handle env ⟨some f⟩ files).escaped = none ∧
    responses (handle env ⟨some f⟩ files).world.trace = [⟨200, [("text", data.text)]⟩] ∧
    extractCalls (handle env ⟨some f⟩ files).world.trace = [buf] := by
  simp [handle, uploadHandler, hmime, readFileSync, pdfParse, unlinkSync, resJson,
    logEvent, hread, hdel, hstored, hparse, unlinkCalls, responses, extractCalls]

/-- Witness of C6: the document the extractor accepts comes back as
`{"text":"Lecture notes"}` with status 200. -/
theorem pdf_text_returned_witness :
    normalEnv.pdfParse [37, 80, 68, 70] = .ok ⟨1, "Lecture notes"⟩ ∧
    responses (handle normalEnv ⟨some pdfFile⟩ [(tmpAbs, [37, 80, 68, 70])]).world.trace
      = [⟨200, [("text", "Lecture notes")]⟩] :=
  ⟨rfl,
   (pdf_text_returned normalEnv pdfFile [(tmpAbs, [37, 80, 68, 70])] [37, 80, 68, 70]
      ⟨1, "Lecture notes"⟩ rfl (by decide) rfl rfl rfl).2.1⟩

/-- C7 (total response guarantee), the code at a failing input: a plain-text
upload in an environment where every delete raises `EBUSY`. The delete at
line 188 throws inside `try`; the `catch` block sees the file still on disk
and deletes again (line 191), which throws out of the `catch` block before
line 192: the exception escapes the callback and no response is sent. -/
theorem delete_failure_escapes :
    (handle busyEnv ⟨some txtFile⟩ [(tmpAbs, helloBytes)]).escaped = some ⟨"EBUSY"⟩ ∧
    responses (handle busyEnv ⟨some txtFile⟩ [(tmpAbs, helloBytes)]).world.trace = [] ∧
    (handle busyEnv ⟨some txtFile⟩ [(tmpAbs, helloBytes)]).world.trace
      = [Event.readFile tmpAbs, Event.unlink tmpAbs, Event.existsCheck tmpAbs,
         Event.unlink tmpAbs] := by
  decide

/-- C8 (delete count), as amended: for a request that carries a file part whose
temporary file is on disk, when the delete does not fail the handler performs
exactly one delete call, on the temporary path, whatever the declared type and
whatever the read and the extractor do; for a request with no file part it
performs no delete. -/
theorem delete_count (env : Env) (f : UploadedFile) (files : List (String × Buffer))
    (buf : Buffer)
    (hstored : lookupFile (env.resolve f.path) files = some buf)
    (hdel : env.unlinkFault 0 = none) :
    unlinkCalls (handle env ⟨some f⟩ files).world.trace = [env.resolve f.path] ∧
    unlinkCalls (handle env ⟨none⟩ files).world.trace = [] := by
  refine ⟨?_, rfl⟩
  by_cases hpdf : f.mimetype = "application/pdf"
  · cases hr : env.readFault with
    | some e =>
      simp [handle, uploadHandler, hpdf, readFileSync, pdfParse, unlinkSync, existsSync, resJson,
        logEvent, hr, hdel, hstored, unlinkCalls]
    | none =>
      cases hp : env.pdfParse buf <;>
      simp [handle, uploadHandler, hpdf, readFileSync, pdfParse, unlinkSync, existsSync, resJson,
        logEvent, hr, hdel, hstored, hp, unlinkCalls]
  · by_cases htxt : f.mimetype = "text/plain"
    · cases hr : env.readFault <;>
      simp [handle, uploadHandler, htxt, readFileSyncUtf8, readFileSync, unlinkSync, existsSync,
        resJson, logEvent, hr, hdel, hstored, unlinkCalls]
    · simp [handle, uploadHandler, hpdf, htxt, unlinkSync, existsSync,
        resJson, logEvent, hdel, hstored, unlinkCalls]

/-- Witness of C8 as amended: a plain-text upload whose read raises `EIO` is
deleted exactly once. -/
theorem delete_count_witness :
    unreadableEnv.readFault = some ⟨"EIO"⟩ ∧
    unlinkCalls (handle unreadableEnv ⟨some txtFile⟩ [(tmpAbs, helloBytes)]).world.trace
      = [tmpAbs] :=
  ⟨rfl,
   (delete_count unreadableEnv txtFile [(tmpAbs, helloBytes)] helloBytes (by decide) rfl).1⟩

/-- Counterexample to C8 as stated: a request with no file part performs zero
deletes, not one. Two more outcomes differ from one delete call: when the
first delete raises, the failure path calls delete a second time; when the
temporary file is already gone, the failure path calls no delete at all. -/
theorem delete_count_counterexample :
    (unlinkCalls (handle normalEnv ⟨none⟩ [(tmpAbs, helloBytes)]).world.trace).length = 0 ∧
    (unlinkCalls (handle flakyEnv ⟨some txtFile⟩ [(tmpAbs, helloBytes)]).world.trace).length
      = 2 ∧
    (unlinkCalls (handle normalEnv ⟨some pdfFile⟩ []).world.trace).length = 0 := by
  decide

/-- C9 (decode failure), as amended: for an upload declared `text/plain` whose
stored bytes are not valid UTF-8, when the read and the delete do not fail the
handler does not fail: no exception escapes and it sends exactly one
response, status 200, whose text is the lossy decoding of the bytes (each
ill-formed sequence replaced by U+FFFD), a text whose encoding differs from
the bytes uploaded. -/
theorem invalid_utf8_decoded_lossily (env : Env) (f : UploadedFile)
    (files : List (String × Buffer)) (buf : Buffer)
    (hmime : f.mimetype = "text/plain")
    (hstored : lookupFile (env.resolve f.path) files = some buf)
    (hinvalid : ¬ ValidUtf8 buf)
    (hread : env.readFault = none) (hdel : env.unlinkFault 0 = none) :
    (handle env ⟨some f⟩ files).escaped = none ∧
    responses (handle env ⟨some f⟩ files).world.trace = [⟨200, [("text", utf8Decode buf)]⟩] ∧
    utf8Encode (utf8Decode buf) ≠ buf := by
  refine ⟨?_, ?_, hinvalid⟩ <;>
  simp [handle, uploadHandler, hmime, readFileSyncUtf8, readFileSync, unlinkSync, resJson,
    logEvent, hread, hdel, hstored, unlinkCalls, responses]

/-- Witness of C9 as amended: a truncated three-byte sequence followed by `A`
is answered 200 with the text U+FFFD `A`. -/
theorem invalid_utf8_decoded_lossily_witness :
    ¬ ValidUtf8 [0xE2, 0x82, 0x41] ∧
    responses (handle normalEnv ⟨some txtFile⟩ [(tmpAbs, [0xE2, 0x82, 0x41])]).world.trace
      = [⟨200, [("text", utf8Decode [0xE2, 0x82, 0x41])]⟩] :=
  ⟨by decide,
   (invalid_utf8_decoded_lossily normalEnv txtFile [(tmpAbs, [0xE2, 0x82, 0x41])]
      [0xE2, 0x82, 0x41] rfl (by decide) (by decide) rfl rfl).2.1⟩

/-- Counterexample to C9 as stated: the single byte `0xFF` is not valid UTF-8,
yet a `text/plain` upload holding it is answered with status 200 and the text
U+FFFD, not with status 500. -/
theorem decode_failure_counterexample :
    ¬ ValidUtf8 [0xFF] ∧
    responses (handle normalEnv ⟨some txtFile⟩ [(tmpAbs, [0xFF])]).world.trace
      = [⟨200, [("text", String.mk [replacementChar])]⟩] ∧
    responses (handle normalEnv ⟨some txtFile⟩ [(tmpAbs, [0xFF])]).world.trace
      ≠ [⟨500, [("error", "Failed to process file.")]⟩] := by
  decide

/-- C10 (cleanup failures), as amended: for an upload declared
`application/pdf` or `text/plain` whose read and extraction succeed with text
`T`, the response is status 200 with body `{ text: T }` when the delete
succeeds; when the delete raises and the delete retried in the failure path
does not, the response is status 500 with body
`{ error: "Failed to process file." }` instead. -/
theorem delete_failure_surfaced (env : Env) (f : UploadedFile)
    (files : List (String × Buffer)) (buf : Buffer) (T : String)
    (hstored : lookupFile (env.resolve f.path) files = some buf)
    (hread : env.readFault = none)
    (htext : (f.mimetype = "application/pdf" ∧ ∃ data, env.pdfParse buf = .ok data ∧ data.text = T)
      ∨ (f.mimetype = "text/plain" ∧ utf8Decode buf = T)) :
    (env.unlinkFault 0 = none →
      (handle env ⟨some f⟩ files).escaped = none ∧
      responses (handle env ⟨some f⟩ files).world.trace = [⟨200, [("text", T)]⟩]) ∧
    (env.unlinkFault 0 ≠ none → env.unlinkFault 1 = none →
      (handle env ⟨some f⟩ files).escaped = none ∧
      responses (handle env ⟨some f⟩ files).world.trace
        = [⟨500, [("error", "Failed to process file.")]⟩]) := by
  rcases htext with ⟨hpdf, data, hp, rfl⟩ | ⟨htxt, rfl⟩
  · constructor
    · intro hdel
      simp [handle, uploadHandler, hpdf, readFileSync, pdfParse, unlinkSync, existsSync, resJson,
        logEvent, hread, hdel, hstored, hp, unlinkCalls, responses]
    · intro h0 h1
      cases hd : env.unlinkFault 0 with
      | none => exact absurd hd h0
      | some e =>
        simp [handle, uploadHandler, hpdf, readFileSync, pdfParse, unlinkSync, existsSync,
          resJson, logEvent, hread, hd, h1, hstored, hp, unlinkCalls, responses]
  · constructor
    · intro hdel
      simp [handle, uploadHandler, htxt, readFileSyncUtf8, readFileSync, unlinkSync, existsSync,
        resJson, logEvent, hread, hdel, hstored, unlinkCalls, responses]
    · intro h0 h1
      cases hd : env.unlinkFault 0 with
      | none => exact absurd hd h0
      | some e =>
        simp [handle, uploadHandler, htxt, readFileSyncUtf8, readFileSync, unlinkSync, existsSync,
          resJson, logEvent, hread, hd, h1, hstored, unlinkCalls, responses]

/-- Witness of C10 as amended: with a first delete that raises and a second
that succeeds, the readable text `hello world` is answered with status 500. -/
theorem delete_failure_surfaced_witness :
    flakyEnv.unlinkFault 0 ≠ none ∧ flakyEnv.unlinkFault 1 = none ∧
    responses (handle flakyEnv ⟨some txtFile⟩ [(tmpAbs, helloBytes)]).world.trace
      = [⟨500, [("error", "Failed to process file.")]⟩] :=
  ⟨by decide, by decide,
   ((delete_failure_surfaced flakyEnv txtFile [(tmpAbs, helloBytes)] helloBytes "hello world"
      (by decide) rfl (Or.inr ⟨rfl, by decide⟩)).2 (by decide) (by decide)).2⟩

/-- Counterexample to C10 as stated: the read of `hello world` succeeds, the
delete raises once, and the client receives status 500 instead of status 200
with the text. -/
theorem cleanup_failure_counterexample :
    utf8Decode helloBytes = "hello world" ∧
    responses (handle flakyEnv ⟨some txtFile⟩ [(tmpAbs, helloBytes)]).world.trace
      = [⟨500, [("error", "Failed to process file.")]⟩] ∧
    responses (handle flakyEnv ⟨some txtFile⟩ [(tmpAbs, helloBytes)]).world.trace
      ≠ [⟨200, [("text", "hello world")]⟩] := by
  decide

end UploadServer
